import Mathlib

/-
Verification development for the TrenchSight mobile capture component
(src/unnamed/part_000, a React component rendered by src/src/App.jsx).

The component is embedded shallowly:

* pure helpers (`formatFilename`, `distanceMeters`) become Lean functions;
* the React component state (`useState` hooks) becomes the record `St`;
* each sensor callback, operator click and asynchronous resumption becomes
  an `Act`; `step` applies one such event to a configuration consisting of
  the component state, the list of in-flight capture tasks (each capture
  click creates one: the `onClick` closure snapshots the render-time state,
  and the tail of `captureAndUpload` runs when its fetches settle), and the
  trace of externally observable effects (alerts, confirm prompts, camera
  acquisition, the two backend POSTs, releasing the camera tracks).

JavaScript numbers are modelled as rationals (every IEEE double is a
rational); `null`/`undefined` become `Option`.  Within one event handler the
source reads the pre-event values of the `useState` variables (the setter
calls do not mutate the closure's bindings), which the step functions below
reproduce by reading the incoming state throughout.  The displayed cumulative
distance is the pure function `distanceMeters` applied to the tracked
`startCoords`/`coords` pair and is read by no transition; it is modelled by
`distanceMeters` alone (over ℝ, since the source computes it with
transcendental functions).
-/

namespace TrenchSight

/-- Latitude/longitude pair as produced by the geolocation callback. -/
structure Coord where
  latitude : ℚ
  longitude : ℚ
  deriving DecidableEq

/-- Character class of the regex `[a-zA-Z0-9_-]` in `formatFilename`. -/
def safeChar (ch : Char) : Bool :=
  (97 ≤ ch.toNat && ch.toNat ≤ 122) || (65 ≤ ch.toNat && ch.toNat ≤ 90) ||
    (48 ≤ ch.toNat && ch.toNat ≤ 57) || ch.toNat == 95 || ch.toNat == 45

/-- Embedding of `siteName.replace(/[^a-zA-Z0-9_-]/g, '_')`: the global
regex replaces every character outside the class by one underscore. -/
def sanitizeSite (s : String) : String :=
  String.mk (s.data.map (fun ch => if safeChar ch then ch else '_'))

/-- Decimal digit character. -/
def digitChar (d : ℕ) : Char := Char.ofNat (48 + d)

/-- Fuel-driven accumulation of the decimal digits of a natural number. -/
def natChars : ℕ → ℕ → List Char → List Char
  | 0, _, acc => acc
  | fuel + 1, n, acc =>
    if n < 10 then digitChar n :: acc
    else natChars fuel (n / 10) (digitChar (n % 10) :: acc)

/-- Embedding of JavaScript `String(n)` for a natural number. -/
def natToString (n : ℕ) : String := String.mk (natChars (n + 1) n [])

/-- Embedding of JavaScript `s.padStart(k, '0')`. -/
def jsPadStart (s : String) (k : ℕ) : String :=
  if k ≤ s.length then s else String.mk (List.replicate (k - s.length) '0') ++ s

/-- Left-pad with zeros up to length `k` (the normal form of `padStart`). -/
def padLeft (k : ℕ) (s : String) : String :=
  String.mk (List.replicate (k - s.length) '0') ++ s

/-- Nearest integer to `x * 10^6` for `x ≥ 0`, larger value on ties: the
integer `n` chosen by `toFixed(6)` in the ECMAScript specification. -/
def round6 (x : ℚ) : ℕ :=
  (2000000 * x.num.toNat + x.den) / (2 * x.den)

/-- Embedding of JavaScript `q.toFixed(6)`: sign, then the rounded value
rendered with exactly six fractional digits. -/
def toFixed6 (q : ℚ) : String :=
  let sign := if q < 0 then "-" else ""
  let n := round6 |q|
  sign ++ natToString (n / 1000000) ++ "." ++ padLeft 6 (natToString (n % 1000000))

/-- Embedding of `formatFilename` from the source: sanitized site name,
date, zero-padded sequence number and the two coordinates, joined by
underscores with a `.jpg` suffix. -/
def formatFilename (siteName date : String) (seq : ℕ) (lat lng : ℚ) : String :=
  let safeSite := sanitizeSite siteName
  let d := date
  safeSite ++ "_" ++ d ++ "_" ++ jsPadStart (natToString seq) 3 ++ "_" ++
    toFixed6 lat ++ "_" ++ toFixed6 lng ++ ".jpg"

/-- Filename generator written from the specification text: output format
`{safeSite}_{date}_{seq:3digits}_{lat:.6f}_{lng:.6f}.jpg`, where `safeSite`
replaces each character outside `[A-Za-z0-9_-]` by `_` without collapsing,
`seq` is zero-padded to three digits (natural width above 999), and the
coordinates carry exactly six fractional digits. -/
def formatFilenameSpec (siteName date : String) (seq : ℕ) (lat lng : ℚ) : String :=
  String.mk (siteName.data.map (fun ch => if safeChar ch then ch else '_')) ++ "_" ++
    date ++ "_" ++ padLeft 3 (natToString seq) ++ "_" ++
    toFixed6 lat ++ "_" ++ toFixed6 lng ++ ".jpg"

/-- The `useState` hooks of the component, one field per hook (the
write-only displayed distance excepted, see the header comment). -/
structure St where
  siteName : String
  date : String
  coords : Option Coord
  headingRef : Option ℚ
  pitchRef : Option ℚ
  zoom : ℚ
  mode : String
  seq : ℕ
  started : Bool
  startCoords : Option Coord
  batteryLow : Bool
  storageOk : Bool
  angleBaseline : Option ℚ
  angleWarning : Bool
  capturing : Bool
  cameraOn : Bool
  deriving DecidableEq

/-- Externally observable actions of the component. -/
inductive Effect where
  | alert (msg : String)
  | confirmPrompt (msg : String)
  | acquireCamera
  | stopTracks
  | postSessions (site date : String) (lat lng : ℚ)
  | postPhotos (sessionId : Option String) (seq : ℕ) (lat lng : ℚ)
      (tilt heading : Option ℚ) (zoom : ℚ) (filename : String)
  deriving DecidableEq

/-- An in-flight capture: the render-time state snapshot captured by the
capture button's `onClick` closure, and whether its per-capture
`createSession` guard passed (so that a session POST is awaiting a reply). -/
structure PendingCapture where
  snap : St
  posted : Bool
  deriving DecidableEq

/-- Component state, in-flight captures and the observable effect trace. -/
structure Config where
  st : St
  pending : List PendingCapture
  effects : List Effect
  deriving DecidableEq

/-- JavaScript numeric coercion of a possibly-null sensor value: `null`
behaves as `0` in arithmetic. -/
def jsNum : Option ℚ → ℚ
  | some q => q
  | none => 0

/-- Exact rational subtraction, written through `mkRat` so that it reduces
inside the kernel (`Rat.sub` is irreducible); `jsSub_eq` identifies it
with `a - b`. -/
def jsSub (a b : ℚ) : ℚ := mkRat (a.num * b.den - b.num * a.den) (a.den * b.den)

/-- Embedding of `Math.abs`. -/
def jsAbs (q : ℚ) : ℚ := if q < 0 then -q else q

/-- The literal `0.15` of the battery check. -/
def batteryThreshold : ℚ := mkRat 15 100

/-- Read a coordinate that the control flow has already checked truthy. -/
def jsCoord : Option Coord → Coord
  | some z => z
  | none => ⟨0, 0⟩

/-- Truthiness of `data.session_id` as tested by `if (!sid) return`. -/
def sidTruthy : Option String → Bool
  | none => false
  | some s => decide (s ≠ "")

/-- Guard of `createSession`: `if (!siteName || !coords)`. -/
def sessionGuardOk (s : St) : Bool :=
  decide (s.siteName ≠ "") && s.coords.isSome

/-- Embedding of `createSession`: either the validation alert with no
request, or the `POST /api/sessions` request whose reply (an optional
`session_id`) is supplied by the network oracle `netSid`. -/
def createSession (s : St) (netSid : Option String) : Option String × List Effect :=
  if sessionGuardOk s then
    (netSid, [Effect.postSessions s.siteName s.date
      (jsCoord s.coords).latitude (jsCoord s.coords).longitude])
  else (none, [Effect.alert "Alan adı ve konum gerekli"])

/-- State change of a successful `startCamera`: the video element gets a
stream, and when the track reports a zoom capability the zoom is clamped
into its range (the desired value depends on the selected mode). -/
def startCameraSt (s : St) (zoomCap : Option (ℚ × ℚ)) : St :=
  let s1 := { s with cameraOn := true }
  match zoomCap with
  | some mm =>
    let desired := if s.mode = "0.5x" then mm.1 else 1
    { s1 with zoom := min mm.2 (max mm.1 desired) }
  | none => s1

/-- Geolocation callback: store the fix; on the first fix also set the
anchor (the handler reads the pre-event `startCoords` in both tests). -/
def stepGeo (s : St) (lat lng : ℚ) : St :=
  let s1 := { s with coords := some ⟨lat, lng⟩ }
  if s.startCoords = none then { s1 with startCoords := some ⟨lat, lng⟩ } else s1

/-- Device-orientation callback `handleOrient`: store heading and pitch;
arm the baseline on the first sample of a started session; when a baseline
was already set before this event, recompute the warning from the absolute
deviation (a null pitch coerces to `0` in the subtraction). -/
def stepOrient (s : St) (pitch heading : Option ℚ) : St :=
  let base := s.angleBaseline
  let s1 := { s with headingRef := heading, pitchRef := pitch }
  let s2 := if base = none ∧ s.started = true then { s1 with angleBaseline := pitch } else s1
  match base with
  | some b => { s2 with angleWarning := decide (5 < jsAbs (jsSub (jsNum pitch) b)) }
  | none => s2

/-- Storage estimate callback: only a truthy quota and usage update the
flag, which then demands more than 100 MiB free. -/
def stepStorage (s : St) (quota usage : ℕ) : St :=
  if quota ≠ 0 ∧ usage ≠ 0 then
    { s with storageOk := decide (100 * 1024 * 1024 < quota - usage) }
  else s

/-- Embedding of `onStart` (the start button is only rendered while not
capturing): storage hard stop, battery confirm, camera acquisition (a
failure alerts but does not abort), then `createSession`; only a truthy
session id sets `started` and `capturing`. -/
def stepStart (c : Config) (confirmYes cameraOk : Bool) (camErr : String)
    (zoomCap : Option (ℚ × ℚ)) (netSid : Option String) : Config :=
  if c.st.capturing = true then c
  else if c.st.storageOk = false then
    { c with effects := c.effects ++ [Effect.alert "Cihazda yeterli depolama alanı yok"] }
  else if c.st.batteryLow = true ∧ confirmYes = false then
    { c with effects := c.effects ++
        [Effect.confirmPrompt "Batarya düşük. Yine de devam edilsin mi?"] }
  else
    let confEffs := if c.st.batteryLow = true then
      [Effect.confirmPrompt "Batarya düşük. Yine de devam edilsin mi?"] else []
    let camEffs := Effect.acquireCamera ::
      (if cameraOk = true then [] else [Effect.alert ("Kamera açılamadı: " ++ camErr)])
    let st1 := if cameraOk = true then startCameraSt c.st zoomCap else c.st
    let res := createSession st1 netSid
    let st2 := if sidTruthy res.1 = true then { st1 with started := true, capturing := true } else st1
    { c with st := st2, effects := c.effects ++ confEffs ++ camEffs ++ res.2 }

/-- Embedding of the capture button click: the button exists only while
`capturing` and is disabled exactly while `angleWarning`; an enabled click
runs the synchronous prefix of `createSession()` (validation alert or the
session POST) and leaves an in-flight capture holding the render-time
state snapshot. -/
def stepTrigger (c : Config) : Config :=
  if c.st.capturing = false ∨ c.st.angleWarning = true then c
  else
    { c with
      pending := c.pending ++ [⟨c.st, sessionGuardOk c.st⟩],
      effects := c.effects ++ (createSession c.st none).2 }

/-- Resumption of in-flight capture `i` once its fetches settle.  If its
session POST was made and that fetch rejected (`sessionFetchOk = false`)
the awaited `createSession()` throws and `captureAndUpload` never runs.
Otherwise `captureAndUpload` receives the session id (or `undefined` when
the guard had failed).  Its `if (!videoRef.current) return` guard tests
the `<video>` element, which the component always renders (the ref is set
on mount and never cleared), so the guard cannot fire while the capture
button exists and has no branch here: even a capture whose camera
acquisition failed proceeds, drawing from the stream-less element.  The
handler then throws on a null snapshot coordinate (`current.latitude` on
`null`), and otherwise issues the photo POST built from the snapshot with
sequence number `snap.seq + 1`; only when that upload fetch resolves does
`setSeq(s => s + 1)` run, incrementing the live counter. -/
def stepResolve (c : Config) (i : ℕ) (sessionFetchOk : Bool) (netSid : Option String)
    (uploadOk : Bool) : Config :=
  match c.pending.get? i with
  | none => c
  | some t =>
    let c1 : Config := { c with pending := c.pending.eraseIdx i }
    if t.posted = true ∧ sessionFetchOk = false then c1
    else
      let sid := if t.posted = true then netSid else none
      match t.snap.coords with
      | none => c1
      | some z =>
        let fn := formatFilename t.snap.siteName t.snap.date (t.snap.seq + 1)
          z.latitude z.longitude
        let c2 : Config := { c1 with effects := c1.effects ++
          [Effect.postPhotos sid (t.snap.seq + 1) z.latitude z.longitude
            t.snap.pitchRef t.snap.headingRef t.snap.zoom fn] }
        if uploadOk = true then { c2 with st := { c2.st with seq := c2.st.seq + 1 } }
        else c2

/-- Embedding of `onStop` (the stop button is only rendered while
capturing): stop the acquired tracks, clear `capturing` and `started`;
nothing else is reset. -/
def stepStop (c : Config) : Config :=
  if c.st.capturing = false then c
  else
    { c with
      st := { c.st with capturing := false, started := false },
      effects := c.effects ++ (if c.st.cameraOn = true then [Effect.stopTracks] else []) }

/-- Events the component reacts to: operator edits and clicks, sensor
callbacks, and resumptions of suspended asynchronous work. -/
inductive Act where
  | setSiteName (s : String)
  | setDate (s : String)
  | setMode (m : String)
  | geo (lat lng : ℚ)
  | orient (pitch heading : Option ℚ)
  | battery (level : ℚ)
  | storage (quota usage : ℕ)
  | startClick (confirmYes cameraOk : Bool) (camErr : String)
      (zoomCap : Option (ℚ × ℚ)) (netSid : Option String)
  | captureTrigger
  | captureResolve (i : ℕ) (sessionFetchOk : Bool) (netSid : Option String) (uploadOk : Bool)
  | stopClick
  deriving DecidableEq

/-- One event of the single-threaded, event-driven execution. -/
def step (c : Config) : Act → Config
  | Act.setSiteName s => { c with st := { c.st with siteName := s } }
  | Act.setDate s => { c with st := { c.st with date := s } }
  | Act.setMode m => { c with st := { c.st with mode := m } }
  | Act.geo lat lng => { c with st := stepGeo c.st lat lng }
  | Act.orient p h => { c with st := stepOrient c.st p h }
  | Act.battery lvl => { c with st := { c.st with batteryLow := decide (lvl ≤ batteryThreshold) } }
  | Act.storage q u => { c with st := stepStorage c.st q u }
  | Act.startClick cy ck ce zc ns => stepStart c cy ck ce zc ns
  | Act.captureTrigger => stepTrigger c
  | Act.captureResolve i f ns u => stepResolve c i f ns u
  | Act.stopClick => stepStop c

/-- Initial hook values (`today` is the environment-supplied ISO date). -/
def initSt (today : String) : St :=
  { siteName := "", date := today, coords := none, headingRef := none,
    pitchRef := none, zoom := 1, mode := "1x", seq := 0, started := false,
    startCoords := none, batteryLow := false, storageOk := true,
    angleBaseline := none, angleWarning := false, capturing := false,
    cameraOn := false }

/-- Freshly mounted component. -/
def initConfig (today : String) : Config := ⟨initSt today, [], []⟩

/-- Run a sequence of events. -/
def run (c : Config) (acts : List Act) : Config := acts.foldl step c

/-- Recognizer for session-creation requests in the effect trace. -/
def isSessionReq : Effect → Bool
  | Effect.postSessions _ _ _ _ => true
  | _ => false

/-- Number of `POST /api/sessions` requests in a trace. -/
def sessionReqCount (l : List Effect) : ℕ := (l.filter isSessionReq).length

/-- Session id carried by a photo upload, when the effect is one. -/
def photoSid : Effect → Option (Option String)
  | Effect.postPhotos sid _ _ _ _ _ _ _ => some sid
  | _ => none

/-- Sequence numbers carried by the photo uploads of a trace, in order. -/
def photoSeqs (l : List Effect) : List ℕ :=
  l.filterMap (fun e => match e with
    | Effect.postPhotos _ q _ _ _ _ _ _ => some q
    | _ => none)

/-- Degrees to radians, as in the source's `toRad`. -/
noncomputable def toRad (x : ℝ) : ℝ := x * Real.pi / 180

/-- The haversine summand `h` computed by `distanceMeters`. -/
noncomputable def hav (a b : Coord) : ℝ :=
  Real.sin (toRad ((b.latitude : ℝ) - (a.latitude : ℝ)) / 2) ^ 2 +
    Real.cos (toRad (a.latitude : ℝ)) * Real.cos (toRad (b.latitude : ℝ)) *
      Real.sin (toRad ((b.longitude : ℝ) - (a.longitude : ℝ)) / 2) ^ 2

/-- Embedding of `distanceMeters`: zero on a missing endpoint, otherwise
`2 R asin (sqrt h)` with `R = 6371000`. -/
noncomputable def distanceMeters : Option Coord → Option Coord → ℝ
  | none, _ => 0
  | some _, none => 0
  | some a, some b => 2 * 6371000 * Real.arcsin (Real.sqrt (hav a b))

/-- The kernel-reducible subtraction agrees with rational subtraction. -/
theorem jsSub_eq (a b : ℚ) : jsSub a b = a - b := by
  have ha : (a.den : ℚ) ≠ 0 := Nat.cast_ne_zero.mpr a.den_nz
  have hb : (b.den : ℚ) ≠ 0 := Nat.cast_ne_zero.mpr b.den_nz
  rw [jsSub, Rat.mkRat_eq_div]
  push_cast
  conv_rhs => rw [← Rat.num_div_den a, ← Rat.num_div_den b]
  rw [div_sub_div _ _ ha hb]
  ring_nf

/-- The embedded `Math.abs` is the absolute value. -/
theorem jsAbs_eq (q : ℚ) : jsAbs q = |q| := by
  rw [jsAbs]
  by_cases h : q < 0
  · simp [h, abs_of_neg h]
  · simp [h, abs_of_nonneg (not_lt.mp h)]

/-- Fields of the component state that `onStart` never writes. -/
theorem stepStart_frame (c : Config) (cy ck : Bool) (ce : String)
    (zc : Option (ℚ × ℚ)) (ns : Option String) :
    (stepStart c cy ck ce zc ns).st.siteName = c.st.siteName ∧
    (stepStart c cy ck ce zc ns).st.coords = c.st.coords ∧
    (stepStart c cy ck ce zc ns).st.seq = c.st.seq ∧
    (stepStart c cy ck ce zc ns).st.angleBaseline = c.st.angleBaseline ∧
    (stepStart c cy ck ce zc ns).st.angleWarning = c.st.angleWarning ∧
    (stepStart c cy ck ce zc ns).pending = c.pending := by
  unfold stepStart startCameraSt
  dsimp only
  repeat' split
  all_goals exact ⟨rfl, rfl, rfl, rfl, rfl, rfl⟩

/-- A capture click never changes the component state itself. -/
theorem stepTrigger_st (c : Config) : (stepTrigger c).st = c.st := by
  unfold stepTrigger
  split <;> rfl

/-- Fields of the component state that `onStop` never writes. -/
theorem stepStop_frame (c : Config) :
    (stepStop c).st.seq = c.st.seq ∧
    (stepStop c).st.angleBaseline = c.st.angleBaseline ∧
    (stepStop c).st.angleWarning = c.st.angleWarning ∧
    (stepStop c).pending = c.pending := by
  unfold stepStop
  repeat' split
  all_goals exact ⟨rfl, rfl, rfl, rfl⟩

/-- Fields that resuming an in-flight capture never writes. -/
theorem stepResolve_frame (c : Config) (i : ℕ) (f : Bool) (ns : Option String) (u : Bool) :
    (stepResolve c i f ns u).st.angleBaseline = c.st.angleBaseline ∧
    (stepResolve c i f ns u).st.angleWarning = c.st.angleWarning ∧
    (stepResolve c i f ns u).st.started = c.st.started ∧
    (stepResolve c i f ns u).st.capturing = c.st.capturing ∧
    (stepResolve c i f ns u).st.cameraOn = c.st.cameraOn ∧
    (stepResolve c i f ns u).st.coords = c.st.coords ∧
    (stepResolve c i f ns u).st.siteName = c.st.siteName := by
  unfold stepResolve
  dsimp only
  repeat' split
  all_goals exact ⟨rfl, rfl, rfl, rfl, rfl, rfl, rfl⟩

/-- Fields that the geolocation callback never writes. -/
theorem stepGeo_frame (s : St) (lat lng : ℚ) :
    (stepGeo s lat lng).seq = s.seq ∧
    (stepGeo s lat lng).angleBaseline = s.angleBaseline ∧
    (stepGeo s lat lng).angleWarning = s.angleWarning ∧
    (stepGeo s lat lng).started = s.started := by
  unfold stepGeo
  repeat' split
  all_goals exact ⟨rfl, rfl, rfl, rfl⟩

/-- Fields that the orientation callback never writes. -/
theorem stepOrient_frame (s : St) (p hd : Option ℚ) :
    (stepOrient s p hd).seq = s.seq ∧
    (stepOrient s p hd).started = s.started ∧
    (stepOrient s p hd).capturing = s.capturing := by
  unfold stepOrient
  dsimp only
  repeat' split
  all_goals exact ⟨rfl, rfl, rfl⟩

/-- Fields that the storage estimate callback never writes. -/
theorem stepStorage_frame (s : St) (q u : ℕ) :
    (stepStorage s q u).seq = s.seq ∧
    (stepStorage s q u).angleBaseline = s.angleBaseline ∧
    (stepStorage s q u).angleWarning = s.angleWarning := by
  unfold stepStorage
  repeat' split
  all_goals exact ⟨rfl, rfl, rfl⟩

/-- Only an orientation event can write the baseline or the warning. -/
theorem step_frozen_baseline (c : Config) (a : Act) (hna : ∀ p hd, a ≠ Act.orient p hd) :
    (step c a).st.angleBaseline = c.st.angleBaseline ∧
    (step c a).st.angleWarning = c.st.angleWarning := by
  cases a with
  | setSiteName s => exact ⟨rfl, rfl⟩
  | setDate s => exact ⟨rfl, rfl⟩
  | setMode m => exact ⟨rfl, rfl⟩
  | geo lat lng =>
    exact ⟨(stepGeo_frame c.st lat lng).2.1, (stepGeo_frame c.st lat lng).2.2.1⟩
  | orient p hd => exact absurd rfl (hna p hd)
  | battery lvl => exact ⟨rfl, rfl⟩
  | storage q u =>
    exact ⟨(stepStorage_frame c.st q u).2.1, (stepStorage_frame c.st q u).2.2⟩
  | startClick cy ck ce zc ns =>
    exact ⟨(stepStart_frame c cy ck ce zc ns).2.2.2.1, (stepStart_frame c cy ck ce zc ns).2.2.2.2.1⟩
  | captureTrigger =>
    rw [show step c Act.captureTrigger = stepTrigger c from rfl, stepTrigger_st]
    exact ⟨rfl, rfl⟩
  | captureResolve i f ns u =>
    exact ⟨(stepResolve_frame c i f ns u).1, (stepResolve_frame c i f ns u).2.1⟩
  | stopClick =>
    exact ⟨(stepStop_frame c).2.1, (stepStop_frame c).2.2.1⟩

/-- An orientation event never clears an already-set baseline. -/
theorem stepOrient_baseline_some (s : St) (p hd : Option ℚ) (b : ℚ)
    (h : s.angleBaseline = some b) : (stepOrient s p hd).angleBaseline = some b := by
  unfold stepOrient
  rw [h]
  simp

/-- No event whatsoever clears or changes an already-set baseline. -/
theorem baseline_some_step (c : Config) (a : Act) (b : ℚ)
    (h : c.st.angleBaseline = some b) : (step c a).st.angleBaseline = some b := by
  by_cases horient : ∀ p hd, a ≠ Act.orient p hd
  · rw [(step_frozen_baseline c a horient).1]
    exact h
  · push_neg at horient
    obtain ⟨p, hd, rfl⟩ := horient
    exact stepOrient_baseline_some c.st p hd b h

/-- An orientation event sets an unset baseline only while started, and
then to its own pitch. -/
theorem stepOrient_baseline_new (s : St) (p hd : Option ℚ)
    (h0 : s.angleBaseline = none) (h1 : (stepOrient s p hd).angleBaseline ≠ none) :
    ∃ pv, p = some pv ∧ s.started = true ∧ (stepOrient s p hd).angleBaseline = some pv := by
  unfold stepOrient at h1 ⊢
  rw [h0] at h1 ⊢
  dsimp only at h1 ⊢
  by_cases hs : s.started = true
  · rw [if_pos ⟨rfl, hs⟩] at h1 ⊢
    cases p with
    | none => exact absurd rfl h1
    | some pv => exact ⟨pv, rfl, hs, rfl⟩
  · rw [if_neg (fun hc => hs hc.2)] at h1
    exact absurd rfl h1

/-- The only event that sets an unset baseline is an orientation sample
with a non-null pitch arriving while a session is started. -/
theorem baseline_new_step (c : Config) (a : Act)
    (h0 : c.st.angleBaseline = none) (h1 : (step c a).st.angleBaseline ≠ none) :
    ∃ pv hd, a = Act.orient (some pv) hd ∧ c.st.started = true ∧
      (step c a).st.angleBaseline = some pv := by
  by_cases horient : ∀ p hd, a ≠ Act.orient p hd
  · rw [(step_frozen_baseline c a horient).1] at h1
    exact absurd h0 h1
  · push_neg at horient
    obtain ⟨p, hd, rfl⟩ := horient
    obtain ⟨pv, hp, hs, hb⟩ := stepOrient_baseline_new c.st p hd h0 h1
    exact ⟨pv, hd, by rw [hp], hs, hb⟩

/-- An orientation event keeps the invariant that the warning is clear
while no baseline is set (the warning is recomputed only under a baseline
that was set before the event). -/
theorem stepOrient_inv (s : St) (p hd : Option ℚ)
    (h : s.angleBaseline = none → s.angleWarning = false) :
    (stepOrient s p hd).angleBaseline = none → (stepOrient s p hd).angleWarning = false := by
  intro h1
  unfold stepOrient at h1 ⊢
  rcases Option.eq_none_or_eq_some s.angleBaseline with h0 | ⟨b, h0⟩
  · rw [h0] at h1 ⊢
    by_cases hs : s.started = true
    · simp [hs] at h1 ⊢
      exact h h0
    · have hs2 : s.started = false := by simpa using hs
      simp [hs2] at h1 ⊢
      exact h h0
  · rw [h0] at h1
    simp at h1

/-- Every event keeps the warning clear while no baseline is set. -/
theorem warn_inv_step (c : Config) (a : Act)
    (h : c.st.angleBaseline = none → c.st.angleWarning = false) :
    (step c a).st.angleBaseline = none → (step c a).st.angleWarning = false := by
  by_cases horient : ∀ p hd, a ≠ Act.orient p hd
  · obtain ⟨hb, hw⟩ := step_frozen_baseline c a horient
    rw [hb, hw]
    exact h
  · push_neg at horient
    obtain ⟨p, hd, rfl⟩ := horient
    exact stepOrient_inv c.st p hd h

/-- Whole runs keep the warning clear while no baseline is set. -/
theorem warn_inv_run (acts : List Act) : ∀ c : Config,
    (c.st.angleBaseline = none → c.st.angleWarning = false) →
    ((run c acts).st.angleBaseline = none → (run c acts).st.angleWarning = false) := by
  induction acts with
  | nil => exact fun c h => h
  | cons a l ih => exact fun c h => ih (step c a) (warn_inv_step c a h)

/-- After an orientation event with pitch `p` leaves a baseline `b` set,
the warning is raised exactly when `|p - b|` exceeds five degrees. -/
theorem stepOrient_warning_post (s : St) (p : ℚ) (hd : Option ℚ)
    (hinv : s.angleBaseline = none → s.angleWarning = false) (b : ℚ)
    (hb : (stepOrient s (some p) hd).angleBaseline = some b) :
    (stepOrient s (some p) hd).angleWarning = true ↔ 5 < |p - b| := by
  unfold stepOrient at hb ⊢
  rcases Option.eq_none_or_eq_some s.angleBaseline with h0 | ⟨b0, h0⟩
  · rw [h0] at hb ⊢
    by_cases hs : s.started = true
    · simp [hs] at hb ⊢
      subst hb
      rw [hinv h0]
      simp
    · have hs2 : s.started = false := by simpa using hs
      simp [hs2] at hb
  · rw [h0] at hb ⊢
    simp at hb
    subst hb
    simp [jsNum, decide_eq_true_iff, jsSub_eq, jsAbs_eq]

/-- Only an upload resumption can write the photo counter. -/
theorem step_frozen_seq (c : Config) (a : Act)
    (hna : ∀ i f ns u, a ≠ Act.captureResolve i f ns u) :
    (step c a).st.seq = c.st.seq := by
  cases a with
  | setSiteName s => rfl
  | setDate s => rfl
  | setMode m => rfl
  | geo lat lng => exact (stepGeo_frame c.st lat lng).1
  | orient p hd => exact (stepOrient_frame c.st p hd).1
  | battery lvl => rfl
  | storage q u => exact (stepStorage_frame c.st q u).1
  | startClick cy ck ce zc ns => exact (stepStart_frame c cy ck ce zc ns).2.2.1
  | captureTrigger =>
    rw [show step c Act.captureTrigger = stepTrigger c from rfl, stepTrigger_st]
  | captureResolve i f ns u => exact absurd rfl (hna i f ns u)
  | stopClick => exact (stepStop_frame c).1

/-- An upload resumption advances the photo counter by at most one. -/
theorem stepResolve_seq_bound (c : Config) (i : ℕ) (f : Bool) (ns : Option String) (u : Bool) :
    (stepResolve c i f ns u).st.seq = c.st.seq ∨
    (stepResolve c i f ns u).st.seq = c.st.seq + 1 := by
  unfold stepResolve
  dsimp only
  repeat' split
  all_goals first
    | exact Or.inl rfl
    | exact Or.inr rfl

/-- The photo counter never decreases. -/
theorem seq_mono_step (c : Config) (a : Act) : c.st.seq ≤ (step c a).st.seq := by
  by_cases hres : ∀ i f ns u, a ≠ Act.captureResolve i f ns u
  · rw [step_frozen_seq c a hres]
  · push_neg at hres
    obtain ⟨i, f, ns, u, rfl⟩ := hres
    rcases stepResolve_seq_bound c i f ns u with h | h
    · rw [show (step c (Act.captureResolve i f ns u)).st.seq =
        (stepResolve c i f ns u).st.seq from rfl, h]
    · rw [show (step c (Act.captureResolve i f ns u)).st.seq =
        (stepResolve c i f ns u).st.seq from rfl, h]
      exact Nat.le_succ _

/-- On a resumption that reaches the upload, the counter advances by one
exactly when the upload fetch resolves, and not when it rejects. -/
theorem stepResolve_seq (c : Config) (i : ℕ) (f : Bool) (ns : Option String)
    (t : PendingCapture) (z : Coord)
    (hp : c.pending.get? i = some t)
    (hz : t.snap.coords = some z) (hpost : t.posted = true → f = true) :
    (stepResolve c i f ns true).st.seq = c.st.seq + 1 ∧
    (stepResolve c i f ns false).st.seq = c.st.seq := by
  have hnf : ¬(t.posted = true ∧ f = false) := by
    rintro ⟨h1, h2⟩
    rw [hpost h1] at h2
    cases h2
  constructor
  · unfold stepResolve
    rw [hp]
    dsimp only
    rw [if_neg hnf, hz]
    dsimp only
    rw [if_pos rfl]
  · unfold stepResolve
    rw [hp]
    dsimp only
    rw [if_neg hnf, hz]
    dsimp only
    rw [if_neg (by simp)]

/-- Complete converse: the only way any resumption changes the photo
counter is a capture that reached the upload (task present, its session
fetch not rejected, a snapshot coordinate in hand) whose upload fetch
resolves, and then the change is exactly plus one. -/
theorem stepResolve_seq_change (c : Config) (i : ℕ) (f : Bool) (ns : Option String) (u : Bool)
    (h : (stepResolve c i f ns u).st.seq ≠ c.st.seq) :
    ∃ t z, c.pending.get? i = some t ∧ (t.posted = true → f = true) ∧
      t.snap.coords = some z ∧ u = true ∧
      (stepResolve c i f ns u).st.seq = c.st.seq + 1 := by
  cases hp : c.pending.get? i with
  | none =>
    exfalso
    apply h
    unfold stepResolve
    rw [hp]
  | some t =>
    by_cases hnf : t.posted = true ∧ f = false
    · exfalso
      apply h
      unfold stepResolve
      rw [hp]
      dsimp only
      rw [if_pos hnf]
    · have hpost : t.posted = true → f = true := by
        intro hpt
        cases hf : f with
        | false => exact absurd ⟨hpt, hf⟩ hnf
        | true => rfl
      cases hz : t.snap.coords with
      | none =>
        exfalso
        apply h
        unfold stepResolve
        rw [hp]
        dsimp only
        rw [if_neg hnf, hz]
      | some z =>
        cases u with
        | false =>
          exfalso
          apply h
          unfold stepResolve
          rw [hp]
          dsimp only
          rw [if_neg hnf, hz]
          dsimp only
          rw [if_neg (by simp)]
        | true =>
          refine ⟨t, z, rfl, hpost, hz, rfl, ?_⟩
          unfold stepResolve
          rw [hp]
          dsimp only
          rw [if_neg hnf, hz]
          dsimp only
          rw [if_pos rfl]

/-- An enabled capture click queues an in-flight capture holding the
current state and emits the synchronous prefix of `createSession`. -/
theorem stepTrigger_enabled (c : Config) (hcap : c.st.capturing = true)
    (hw : c.st.angleWarning = false) :
    stepTrigger c = { c with
      pending := c.pending ++ [⟨c.st, sessionGuardOk c.st⟩],
      effects := c.effects ++ (createSession c.st none).2 } := by
  unfold stepTrigger
  rw [if_neg]
  rintro (h | h)
  · rw [hcap] at h
    cases h
  · rw [hw] at h
    cases h

/-- A capture click outside an unwarned capturing state does nothing. -/
theorem stepTrigger_refused (c : Config)
    (h : c.st.capturing = false ∨ c.st.angleWarning = true) : stepTrigger c = c := by
  unfold stepTrigger
  rw [if_pos h]

/-- With a site name and a fix, `createSession` issues exactly the session
request and hands back the network's reply. -/
theorem createSession_ok (s : St) (ns : Option String) (z : Coord)
    (hsite : s.siteName ≠ "") (hz : s.coords = some z) :
    createSession s ns = (ns, [Effect.postSessions s.siteName s.date z.latitude z.longitude]) := by
  unfold createSession sessionGuardOk
  rw [hz]
  simp [hsite, jsCoord]

/-- Without a site name or a fix, `createSession` only alerts. -/
theorem createSession_fail (s : St) (ns : Option String)
    (h : s.siteName = "" ∨ s.coords = none) :
    createSession s ns = (none, [Effect.alert "Alan adı ve konum gerekli"]) := by
  unfold createSession sessionGuardOk
  rcases h with h | h
  · simp [h]
  · simp [h]

/-- Fields that acquiring the camera never writes. -/
theorem startCameraSt_frame (s : St) (zc : Option (ℚ × ℚ)) :
    (startCameraSt s zc).siteName = s.siteName ∧
    (startCameraSt s zc).coords = s.coords ∧
    (startCameraSt s zc).started = s.started := by
  unfold startCameraSt
  dsimp only
  repeat' split
  all_goals exact ⟨rfl, rfl, rfl⟩

/-- Session-request counting distributes over trace concatenation. -/
theorem sessionReqCount_append (l1 l2 : List Effect) :
    sessionReqCount (l1 ++ l2) = sessionReqCount l1 + sessionReqCount l2 := by
  simp [sessionReqCount, List.filter_append]

/-- A resumption that reaches the upload emits exactly the photo request
built from the trigger-time snapshot, with sequence number `snap.seq + 1`,
and retires the in-flight capture. -/
theorem stepResolve_effects (c : Config) (i : ℕ) (f : Bool) (ns : Option String)
    (t : PendingCapture) (z : Coord) (u : Bool)
    (hp : c.pending.get? i = some t)
    (hz : t.snap.coords = some z) (hpost : t.posted = true → f = true) :
    (stepResolve c i f ns u).effects = c.effects ++
      [Effect.postPhotos (if t.posted = true then ns else none) (t.snap.seq + 1)
        z.latitude z.longitude t.snap.pitchRef t.snap.headingRef t.snap.zoom
        (formatFilename t.snap.siteName t.snap.date (t.snap.seq + 1) z.latitude z.longitude)] ∧
    (stepResolve c i f ns u).pending = c.pending.eraseIdx i := by
  have hnf : ¬(t.posted = true ∧ f = false) := by
    rintro ⟨h1, h2⟩
    rw [hpost h1] at h2
    cases h2
  unfold stepResolve
  rw [hp]
  dsimp only
  rw [if_neg hnf, hz]
  dsimp only
  split
  · exact ⟨rfl, rfl⟩
  · exact ⟨rfl, rfl⟩

/-- Insufficient storage makes `onStart` stop with only the storage alert:
the state, the in-flight list, the camera and the network are untouched. -/
theorem stepStart_storage_refuse (c : Config) (cy ck : Bool) (ce : String)
    (zc : Option (ℚ × ℚ)) (ns : Option String)
    (hcap : c.st.capturing = false) (hsto : c.st.storageOk = false) :
    stepStart c cy ck ce zc ns =
      { c with effects := c.effects ++ [Effect.alert "Cihazda yeterli depolama alanı yok"] } := by
  unfold stepStart
  rw [if_neg (by simp [hcap]), if_pos hsto]

/-- A declined low-battery confirmation makes `onStart` stop with only the
confirm prompt, before any camera acquisition or network call. -/
theorem stepStart_battery_abort (c : Config) (ck : Bool) (ce : String)
    (zc : Option (ℚ × ℚ)) (ns : Option String)
    (hcap : c.st.capturing = false) (hsto : c.st.storageOk = true) (hbat : c.st.batteryLow = true) :
    stepStart c false ck ce zc ns =
      { c with effects := c.effects ++
          [Effect.confirmPrompt "Batarya düşük. Yine de devam edilsin mi?"] } := by
  unfold stepStart
  rw [if_neg (by simp [hcap]), if_neg (by simp [hsto]), if_pos ⟨hbat, rfl⟩]

/-- When the `createSession` guard fails, `onStart` never starts the
session and never issues a session request, on every one of its paths. -/
theorem stepStart_guard_fail (c : Config) (cy ck : Bool) (ce : String)
    (zc : Option (ℚ × ℚ)) (ns : Option String)
    (hg : c.st.siteName = "" ∨ c.st.coords = none) (h0 : c.st.started = false) :
    (stepStart c cy ck ce zc ns).st.started = false ∧
    sessionReqCount (stepStart c cy ck ce zc ns).effects = sessionReqCount c.effects := by
  unfold stepStart
  split
  · exact ⟨h0, rfl⟩
  · split
    · refine ⟨h0, ?_⟩
      rw [sessionReqCount_append]
      simp [sessionReqCount, isSessionReq]
    · split
      · refine ⟨h0, ?_⟩
        rw [sessionReqCount_append]
        simp [sessionReqCount, isSessionReq]
      · dsimp only
        have hg1 : (if ck = true then startCameraSt c.st zc else c.st).siteName = "" ∨
            (if ck = true then startCameraSt c.st zc else c.st).coords = none := by
          rcases hg with h | h
          · left
            split
            · rw [(startCameraSt_frame c.st zc).1]
              exact h
            · exact h
          · right
            split
            · rw [(startCameraSt_frame c.st zc).2.1]
              exact h
            · exact h
        rw [createSession_fail _ ns hg1]
        dsimp only
        rw [if_neg (by simp [sidTruthy])]
        constructor
        · split
          · rw [(startCameraSt_frame c.st zc).2.2]
            exact h0
          · exact h0
        · rw [sessionReqCount_append, sessionReqCount_append, sessionReqCount_append]
          have e1 : sessionReqCount (if c.st.batteryLow = true then
              [Effect.confirmPrompt "Batarya düşük. Yine de devam edilsin mi?"] else []) = 0 := by
            split <;> simp [sessionReqCount, isSessionReq]
          have e2 : sessionReqCount (Effect.acquireCamera ::
              (if ck = true then [] else [Effect.alert ("Kamera açılamadı: " ++ ce)])) = 0 := by
            split <;> simp [sessionReqCount, isSessionReq]
          rw [e1, e2]
          simp [sessionReqCount, isSessionReq]

/-- Photo-sequence extraction distributes over trace concatenation. -/
theorem photoSeqs_append (l1 l2 : List Effect) :
    photoSeqs (l1 ++ l2) = photoSeqs l1 ++ photoSeqs l2 := by
  simp [photoSeqs]

/-- JavaScript `padStart` is the zero-pad normal form. -/
theorem jsPadStart_eq_padLeft (s : String) (k : ℕ) : jsPadStart s k = padLeft k s := by
  unfold jsPadStart padLeft
  split
  · next h =>
    rw [Nat.sub_eq_zero_of_le h]
    cases s with
    | mk l => rfl
  · rfl

/-- The source filename generator matches the format stated by the
specification. -/
theorem formatFilename_eq_spec (siteName date : String) (seq : ℕ) (lat lng : ℚ) :
    formatFilename siteName date seq lat lng = formatFilenameSpec siteName date seq lat lng := by
  unfold formatFilename formatFilenameSpec sanitizeSite
  rw [jsPadStart_eq_padLeft]

/-- Sanitizing replaces characters one for one: no collapsing. -/
theorem sanitizeSite_length (s : String) : (sanitizeSite s).length = s.length := by
  unfold sanitizeSite
  cases s with
  | mk l => simp [String.length]

/-- Every character of the sanitized site name is in the safe class. -/
theorem sanitizeSite_safe (s : String) :
    ∀ ch ∈ (sanitizeSite s).data, safeChar ch = true := by
  unfold sanitizeSite
  intro ch hch
  simp at hch
  obtain ⟨x, hx, hfx⟩ := hch
  by_cases hsafe : safeChar x = true
  · rw [if_pos hsafe] at hfx
    exact hfx ▸ hsafe
  · rw [if_neg hsafe] at hfx
    rw [← hfx]
    decide

/-- The haversine summand is symmetric in its endpoints. -/
theorem hav_symm (a b : Coord) : hav a b = hav b a := by
  have key : ∀ x y : ℝ, Real.sin (toRad (x - y) / 2) ^ 2 = Real.sin (toRad (y - x) / 2) ^ 2 := by
    intro x y
    have h1 : toRad (x - y) / 2 = -(toRad (y - x) / 2) := by
      unfold toRad
      ring
    rw [h1, Real.sin_neg]
    ring
  unfold hav
  rw [key (b.latitude : ℝ) (a.latitude : ℝ), key (b.longitude : ℝ) (a.longitude : ℝ)]
  ring

/-- The haversine summand vanishes on equal endpoints. -/
theorem hav_self (a : Coord) : hav a a = 0 := by
  unfold hav
  rw [sub_self, sub_self]
  have h0 : toRad 0 = 0 := by
    unfold toRad
    ring
  rw [h0]
  simp

/-- Distance is symmetric, including the null-guard cases. -/
theorem dist_symm_all (a b : Option Coord) : distanceMeters a b = distanceMeters b a := by
  cases a with
  | none =>
    cases b with
    | none => rfl
    | some zb => rfl
  | some za =>
    cases b with
    | none => rfl
    | some zb =>
      simp only [distanceMeters]
      rw [hav_symm]

/-- Distance of a point to itself is zero. -/
theorem dist_self_all (a : Option Coord) : distanceMeters a a = 0 := by
  cases a with
  | none => rfl
  | some za =>
    simp only [distanceMeters]
    rw [hav_self]
    simp [Real.sqrt_zero, Real.arcsin_zero]


/-- C1: the code violates the claim. In the run below the operator starts
one session (the backend answers `sid1`) and then triggers a single
capture: the capture click itself issues a second `POST /api/sessions`,
and the photo upload carries that second request's id `sid2`, not the
`sid1` of the Idle-to-Starting transition, whose id the source discards. -/
theorem c1_session_request_per_capture :
    sessionReqCount (run (initConfig "2024-05-01") [Act.setSiteName "Site", Act.geo 10 20,
      Act.startClick true true "" none (some "sid1"), Act.captureTrigger,
      Act.captureResolve 0 true (some "sid2") true]).effects = 2 ∧
    (run (initConfig "2024-05-01") [Act.setSiteName "Site", Act.geo 10 20,
      Act.startClick true true "" none (some "sid1"), Act.captureTrigger,
      Act.captureResolve 0 true (some "sid2") true]).effects.filterMap photoSid =
      [some "sid2"] := by
  decide

/-- C2: counterexample to the claim as stated. One capture is triggered in
an Active session and its upload request is issued (it carries sequence
number 1), but the upload fetch rejects, so `setSeq` never runs: the
sequence number remains 0 instead of increasing by 1 regardless of the
upload outcome. -/
theorem c2_failed_upload_no_increment :
    (run (initConfig "2024-05-01") [Act.setSiteName "A", Act.geo 10 20,
      Act.startClick true true "" none (some "s1"), Act.captureTrigger,
      Act.captureResolve 0 true (some "s2") false]).st.seq = 0 ∧
    photoSeqs (run (initConfig "2024-05-01") [Act.setSiteName "A", Act.geo 10 20,
      Act.startClick true true "" none (some "s1"), Act.captureTrigger,
      Act.captureResolve 0 true (some "s2") false]).effects = [1] := by
  decide

/-- C2: corrected form. `sequenceNumber` starts at 0 and never decreases;
the only event that changes it at all is an upload resumption whose photo
fetch resolves, for a capture that reached the upload (task present, its
session fetch not rejected, a snapshot coordinate in hand), and then the
change is exactly plus one — so every other event, including a capture
that aborts before uploading, leaves the counter unchanged; conversely a
capture that reaches the upload increments the counter by exactly 1 when
its upload fetch resolves and leaves it unchanged when the fetch
rejects. -/
theorem c2_sequence_increment :
    (∀ today, (initConfig today).st.seq = 0) ∧
    (∀ c a, c.st.seq ≤ (step c a).st.seq) ∧
    (∀ c a, (step c a).st.seq ≠ c.st.seq →
      ∃ i f ns t z, a = Act.captureResolve i f ns true ∧ c.pending.get? i = some t ∧
        (t.posted = true → f = true) ∧ t.snap.coords = some z ∧
        (step c a).st.seq = c.st.seq + 1) ∧
    (∀ c i f ns t z, c.pending.get? i = some t →
      t.snap.coords = some z → (t.posted = true → f = true) →
      (step c (Act.captureResolve i f ns true)).st.seq = c.st.seq + 1 ∧
      (step c (Act.captureResolve i f ns false)).st.seq = c.st.seq) := by
  refine ⟨fun _ => rfl, seq_mono_step, ?_,
    fun c i f ns t z hp hz hpost => stepResolve_seq c i f ns t z hp hz hpost⟩
  intro c a hne
  by_cases hres : ∀ i f ns u, a ≠ Act.captureResolve i f ns u
  · exact absurd (step_frozen_seq c a hres) hne
  · push_neg at hres
    obtain ⟨i, f, ns, u, rfl⟩ := hres
    obtain ⟨t, z, hp, hpost, hz, hu, hseq⟩ := stepResolve_seq_change c i f ns u hne
    subst hu
    exact ⟨i, f, ns, t, z, rfl, hp, hpost, hz, hseq⟩

/-- C2: witness. A concrete in-flight capture with its snapshot coordinate
in hand bumps the counter by one when its upload resolves, and leaves it
unchanged when the upload rejects. -/
theorem c2_sequence_increment_witness :
    ((run (initConfig "d") [Act.setSiteName "W", Act.geo 5 6,
        Act.startClick true true "" none (some "w1"), Act.captureTrigger]).pending.get? 0 =
      some ⟨(run (initConfig "d") [Act.setSiteName "W", Act.geo 5 6,
        Act.startClick true true "" none (some "w1")]).st, true⟩) ∧
    ((run (initConfig "d") [Act.setSiteName "W", Act.geo 5 6,
        Act.startClick true true "" none (some "w1")]).st.coords = some ⟨5, 6⟩) ∧
    ((step (run (initConfig "d") [Act.setSiteName "W", Act.geo 5 6,
        Act.startClick true true "" none (some "w1"), Act.captureTrigger])
        (Act.captureResolve 0 true (some "w2") true)).st.seq =
      (run (initConfig "d") [Act.setSiteName "W", Act.geo 5 6,
        Act.startClick true true "" none (some "w1"), Act.captureTrigger]).st.seq + 1) ∧
    ((step (run (initConfig "d") [Act.setSiteName "W", Act.geo 5 6,
        Act.startClick true true "" none (some "w1"), Act.captureTrigger])
        (Act.captureResolve 0 true (some "w2") false)).st.seq =
      (run (initConfig "d") [Act.setSiteName "W", Act.geo 5 6,
        Act.startClick true true "" none (some "w1"), Act.captureTrigger]).st.seq) := by
  refine ⟨by decide, by decide, ?_, ?_⟩
  · exact (c2_sequence_increment.2.2.2 (run (initConfig "d") [Act.setSiteName "W", Act.geo 5 6,
      Act.startClick true true "" none (some "w1"), Act.captureTrigger]) 0 true (some "w2")
      ⟨(run (initConfig "d") [Act.setSiteName "W", Act.geo 5 6,
        Act.startClick true true "" none (some "w1")]).st, true⟩ ⟨5, 6⟩
      (by decide) (by decide) (by decide)).1
  · exact (c2_sequence_increment.2.2.2 (run (initConfig "d") [Act.setSiteName "W", Act.geo 5 6,
      Act.startClick true true "" none (some "w1"), Act.captureTrigger]) 0 true (some "w2")
      ⟨(run (initConfig "d") [Act.setSiteName "W", Act.geo 5 6,
        Act.startClick true true "" none (some "w1")]).st, true⟩ ⟨5, 6⟩
      (by decide) (by decide) (by decide)).2

/-- C3: counterexample to the claim as stated. In the run below no
orientation event ever arrives, so `AngleBaseline` stays unset and
`angleWarning` stays false; the capture trigger is nevertheless accepted
and a photo upload is attempted (it carries sequence number 1), refuting
that capture is never permitted while the baseline is unset. -/
theorem c3_capture_with_unset_baseline :
    (run (initConfig "2024-05-01") [Act.setSiteName "A", Act.geo 10 20,
      Act.startClick true true "" none (some "s1"), Act.captureTrigger,
      Act.captureResolve 0 true (some "s2") true]).st.angleBaseline = none ∧
    photoSeqs (run (initConfig "2024-05-01") [Act.setSiteName "A", Act.geo 10 20,
      Act.startClick true true "" none (some "s1"), Act.captureTrigger,
      Act.captureResolve 0 true (some "s2") true]).effects = [1] := by
  decide

/-- C3: corrected form. A capture trigger is a no-op (refused: no alert,
no session request, no in-flight capture, hence no upload) exactly when
the controller is not capturing or `angleWarning` is true; being unset,
the baseline by itself never blocks a capture. -/
theorem c3_capture_gating (c : Config) :
    step c Act.captureTrigger = c ↔
      (c.st.capturing = false ∨ c.st.angleWarning = true) := by
  constructor
  · intro h
    by_contra hcon
    push_neg at hcon
    obtain ⟨h1, h2⟩ := hcon
    have hcap : c.st.capturing = true := by simpa using h1
    have hw : c.st.angleWarning = false := by simpa using h2
    have hlen := congrArg (fun k => k.pending.length) h
    rw [show step c Act.captureTrigger = stepTrigger c from rfl,
      stepTrigger_enabled c hcap hw] at hlen
    simp at hlen
  · intro h
    exact stepTrigger_refused c h

/-- C4: after an orientation event carrying pitch `p` is processed, the
warning is raised exactly when `|p - baseline|` exceeds 5 degrees (for
the baseline in force after the event), and in every reachable state the
warning is false while the baseline is unset. -/
theorem c4_angle_warning_iff :
    (∀ today acts, (run (initConfig today) acts).st.angleBaseline = none →
      (run (initConfig today) acts).st.angleWarning = false) ∧
    (∀ today acts (p : ℚ) (hd : Option ℚ) (b : ℚ),
      (step (run (initConfig today) acts) (Act.orient (some p) hd)).st.angleBaseline = some b →
      ((step (run (initConfig today) acts) (Act.orient (some p) hd)).st.angleWarning = true ↔
        5 < |p - b|)) := by
  constructor
  · intro today acts
    exact warn_inv_run acts (initConfig today) (fun _ => rfl)
  · intro today acts p hd b hb
    exact stepOrient_warning_post (run (initConfig today) acts).st p hd
      (warn_inv_run acts (initConfig today) (fun _ => rfl)) b hb

/-- C4: witness. After a baseline of 0 is armed, an orientation sample of
pitch 10 leaves the baseline at 0 and raises the warning, as 5 < 10. -/
theorem c4_angle_warning_iff_witness :
    ((step (run (initConfig "d") [Act.setSiteName "A", Act.geo 1 2,
        Act.startClick true true "" none (some "s"), Act.orient (some 0) none])
        (Act.orient (some 10) none)).st.angleBaseline = some 0) ∧
    ((step (run (initConfig "d") [Act.setSiteName "A", Act.geo 1 2,
        Act.startClick true true "" none (some "s"), Act.orient (some 0) none])
        (Act.orient (some 10) none)).st.angleWarning = true ↔ 5 < |(10 : ℚ) - 0|) :=
  ⟨by decide, c4_angle_warning_iff.2 "d" [Act.setSiteName "A", Act.geo 1 2,
    Act.startClick true true "" none (some "s"), Act.orient (some 0) none] 10 none 0 (by decide)⟩

/-- C5: counterexample to the claim as stated. Session one arms the
baseline at pitch 0; the operator stops and starts a second session,
which never clears the baseline, and the first orientation sample of the
second Active session (pitch 10) does not set a fresh baseline: the
stale `some 0` survives, so the baseline is not set exactly once per
Active session and was already set before the second session started. -/
theorem c5_stale_baseline_second_session :
    (run (initConfig "d") [Act.setSiteName "A", Act.geo 1 2,
      Act.startClick true true "" none (some "s1"), Act.orient (some 0) none,
      Act.stopClick, Act.startClick true true "" none (some "s2")]).st.started = true ∧
    (run (initConfig "d") [Act.setSiteName "A", Act.geo 1 2,
      Act.startClick true true "" none (some "s1"), Act.orient (some 0) none,
      Act.stopClick, Act.startClick true true "" none (some "s2")]).st.angleBaseline = some 0 ∧
    (run (initConfig "d") [Act.setSiteName "A", Act.geo 1 2,
      Act.startClick true true "" none (some "s1"), Act.orient (some 0) none,
      Act.stopClick, Act.startClick true true "" none (some "s2"),
      Act.orient (some 10) none]).st.angleBaseline = some 0 := by
  decide

/-- C5: corrected form. `AngleBaseline` is set at most once over the
component's lifetime: once `some`, no event changes or clears it (stop
included), and the only event turning it from unset to set is an
orientation sample with a non-null pitch delivered while a session is
started, which stores exactly that pitch. -/
theorem c5_baseline_lifecycle :
    (∀ c a (b : ℚ), c.st.angleBaseline = some b → (step c a).st.angleBaseline = some b) ∧
    (∀ c a, c.st.angleBaseline = none → (step c a).st.angleBaseline ≠ none →
      ∃ pv hd, a = Act.orient (some pv) hd ∧ c.st.started = true ∧
        (step c a).st.angleBaseline = some pv) :=
  ⟨fun c a b h => baseline_some_step c a b h, fun c a h0 h1 => baseline_new_step c a h0 h1⟩

/-- C5: witness. A baseline armed at pitch 3 survives the stop click. -/
theorem c5_baseline_lifecycle_witness :
    ((run (initConfig "d") [Act.setSiteName "A", Act.geo 1 2,
      Act.startClick true true "" none (some "s"), Act.orient (some 3) none]).st.angleBaseline =
        some 3) ∧
    ((step (run (initConfig "d") [Act.setSiteName "A", Act.geo 1 2,
      Act.startClick true true "" none (some "s"), Act.orient (some 3) none])
        Act.stopClick).st.angleBaseline = some 3) :=
  ⟨by decide, c5_baseline_lifecycle.1 (run (initConfig "d") [Act.setSiteName "A", Act.geo 1 2,
    Act.startClick true true "" none (some "s"), Act.orient (some 3) none])
    Act.stopClick 3 (by decide)⟩

/-- C6: `onStart` checks storage before battery: with `storageOk` false it
stops with only the storage alert (no confirm prompt even on low battery,
no camera acquisition, no network request, state unchanged); with storage
fine, battery low and the confirmation declined it stops with only the
confirm prompt, before any camera acquisition or network call. -/
theorem c6_start_preconditions (c : Config) (cy ck : Bool) (ce : String)
    (zc : Option (ℚ × ℚ)) (ns : Option String) :
    (c.st.capturing = false → c.st.storageOk = false →
      step c (Act.startClick cy ck ce zc ns) =
        { c with effects := c.effects ++ [Effect.alert "Cihazda yeterli depolama alanı yok"] }) ∧
    (c.st.capturing = false → c.st.storageOk = true → c.st.batteryLow = true →
      step c (Act.startClick false ck ce zc ns) =
        { c with effects := c.effects ++
            [Effect.confirmPrompt "Batarya düşük. Yine de devam edilsin mi?"] }) :=
  ⟨fun h1 h2 => stepStart_storage_refuse c cy ck ce zc ns h1 h2,
   fun h1 h2 h3 => stepStart_battery_abort c ck ce zc ns h1 h2 h3⟩

/-- C6: witness. From a state whose storage estimate left 0 bytes free, a
start click produces exactly the storage alert. -/
theorem c6_start_preconditions_witness :
    ((run (initConfig "d") [Act.storage 1 1]).st.capturing = false) ∧
    ((run (initConfig "d") [Act.storage 1 1]).st.storageOk = false) ∧
    (step (run (initConfig "d") [Act.storage 1 1]) (Act.startClick true true "" none none) =
      { (run (initConfig "d") [Act.storage 1 1]) with
        effects := (run (initConfig "d") [Act.storage 1 1]).effects ++
          [Effect.alert "Cihazda yeterli depolama alanı yok"] }) :=
  ⟨by decide, by decide,
   (c6_start_preconditions (run (initConfig "d") [Act.storage 1 1]) true true "" none none).1
     (by decide) (by decide)⟩

/-- C7: the filename generator realizes the specified format (per-character
sanitization without collapsing, three-digit zero padding, exactly six
fractional digits for the coordinates), the sanitized site segment keeps
its length and contains only characters of `[A-Za-z0-9_-]`, and the
specification's concrete scenario evaluates to its stated string;
determinism holds because `formatFilename` is a pure function of its
arguments. -/
theorem c7_filename_format :
    (∀ siteName date seq lat lng, formatFilename siteName date seq lat lng =
      formatFilenameSpec siteName date seq lat lng) ∧
    (∀ s, (sanitizeSite s).length = s.length) ∧
    (∀ s, ∀ ch ∈ (sanitizeSite s).data, safeChar ch = true) ∧
    formatFilename "Trench Alpha!" "2024-05-01" 1 (mkRat 41015137 1000000)
      (mkRat 2897953 100000) = "Trench_Alpha__2024-05-01_001_41.015137_28.979530.jpg" :=
  ⟨formatFilename_eq_spec, sanitizeSite_length, sanitizeSite_safe, by decide⟩

/-- C7: witness. The underscore produced for the bang in "a!" is safe. -/
theorem c7_filename_format_witness :
    ('_' ∈ (sanitizeSite "a!").data) ∧ safeChar '_' = true :=
  ⟨by decide, c7_filename_format.2.2.1 "a!" '_' (by decide)⟩

/-- C8: the haversine distance of the source is symmetric in its two
arguments (null guards included) and vanishes on equal arguments. -/
theorem c8_distance_symm :
    (∀ a b : Option Coord, distanceMeters a b = distanceMeters b a) ∧
    (∀ a : Option Coord, distanceMeters a a = 0) :=
  ⟨dist_symm_all, dist_self_all⟩

/-- C9: counterexample to the claim as stated. Two rapid capture triggers
before the first upload resolves produce uploads carrying sequence
numbers 1 and 1 (not 1 and 2): the closures share the trigger-time
snapshot `seq = 0`, and the counter advances only at upload resolution. -/
theorem c9_duplicate_sequence_numbers :
    photoSeqs (run (initConfig "d") [Act.setSiteName "B", Act.geo 3 4,
      Act.startClick true true "" none (some "s1"), Act.captureTrigger, Act.captureTrigger,
      Act.captureResolve 0 true (some "sA") true,
      Act.captureResolve 0 true (some "sB") true]).effects = [1, 1] ∧
    (run (initConfig "d") [Act.setSiteName "B", Act.geo 3 4,
      Act.startClick true true "" none (some "s1"), Act.captureTrigger, Act.captureTrigger,
      Act.captureResolve 0 true (some "sA") true,
      Act.captureResolve 0 true (some "sB") true]).st.seq = 2 := by
  decide

/-- C9: corrected form. The sequence number a capture uploads is computed
from the state snapshot taken at its trigger (`snap.seq + 1`), while the
live counter advances only when an upload fetch resolves; hence two rapid
capture triggers issued before the first upload resolves both upload with
the same sequence number, trigger-time `seq + 1`, and only after both
uploads resolve has the counter advanced by two. -/
theorem c9_trigger_sequence (c : Config) (z : Coord) (sA sB : Option String)
    (hcap : c.st.capturing = true) (hw : c.st.angleWarning = false)
    (hcam : c.st.cameraOn = true) (hsite : c.st.siteName ≠ "")
    (hz : c.st.coords = some z) (hpend : c.pending = []) :
    photoSeqs (run c [Act.captureTrigger, Act.captureTrigger,
        Act.captureResolve 0 true sA true, Act.captureResolve 0 true sB true]).effects =
      photoSeqs c.effects ++ [c.st.seq + 1, c.st.seq + 1] ∧
    (run c [Act.captureTrigger, Act.captureTrigger,
        Act.captureResolve 0 true sA true, Act.captureResolve 0 true sB true]).st.seq =
      c.st.seq + 2 := by
  have hguard : sessionGuardOk c.st = true := by
    rw [sessionGuardOk, hz]
    simp [hsite]
  have hS : (createSession c.st none).2 =
      [Effect.postSessions c.st.siteName c.st.date z.latitude z.longitude] := by
    rw [createSession_ok c.st none z hsite hz]
  have e1 : step c Act.captureTrigger = { c with
      pending := [⟨c.st, true⟩],
      effects := c.effects ++ [Effect.postSessions c.st.siteName c.st.date z.latitude z.longitude] } := by
    rw [show step c Act.captureTrigger = stepTrigger c from rfl,
      stepTrigger_enabled c hcap hw, hguard, hS, hpend]
    simp
  have hAst : (step c Act.captureTrigger).st = c.st := stepTrigger_st c
  have hApend : (step c Act.captureTrigger).pending = [⟨c.st, true⟩] := by rw [e1]
  have hAeff : (step c Act.captureTrigger).effects =
      c.effects ++ [Effect.postSessions c.st.siteName c.st.date z.latitude z.longitude] := by
    rw [e1]
  have e2 : step (step c Act.captureTrigger) Act.captureTrigger =
      { (step c Act.captureTrigger) with
        pending := (step c Act.captureTrigger).pending ++
          [⟨(step c Act.captureTrigger).st, sessionGuardOk (step c Act.captureTrigger).st⟩],
        effects := (step c Act.captureTrigger).effects ++
          (createSession (step c Act.captureTrigger).st none).2 } :=
    stepTrigger_enabled (step c Act.captureTrigger)
      (by rw [hAst]; exact hcap) (by rw [hAst]; exact hw)
  have hBst : (step (step c Act.captureTrigger) Act.captureTrigger).st = c.st := by
    rw [e2]
    dsimp only
    exact hAst
  have hBpend : (step (step c Act.captureTrigger) Act.captureTrigger).pending =
      [⟨c.st, true⟩, ⟨c.st, true⟩] := by
    rw [e2]
    dsimp only
    rw [hApend, hAst, hguard]
    rfl
  have hBeff : (step (step c Act.captureTrigger) Act.captureTrigger).effects =
      c.effects ++ [Effect.postSessions c.st.siteName c.st.date z.latitude z.longitude,
        Effect.postSessions c.st.siteName c.st.date z.latitude z.longitude] := by
    rw [e2]
    dsimp only
    rw [hAeff, hAst, hS]
    simp
  have hpB : (step (step c Act.captureTrigger) Act.captureTrigger).pending.get? 0 =
      some ⟨c.st, true⟩ := by
    rw [hBpend]
    rfl
  have rB := stepResolve_effects (step (step c Act.captureTrigger) Act.captureTrigger)
    0 true sA ⟨c.st, true⟩ z true hpB hz (fun _ => rfl)
  have sB1 := (stepResolve_seq (step (step c Act.captureTrigger) Act.captureTrigger)
    0 true sA ⟨c.st, true⟩ z hpB hz (fun _ => rfl)).1
  have hCpend : (step (step (step c Act.captureTrigger) Act.captureTrigger)
      (Act.captureResolve 0 true sA true)).pending = [⟨c.st, true⟩] := by
    rw [show step (step (step c Act.captureTrigger) Act.captureTrigger)
        (Act.captureResolve 0 true sA true) =
      stepResolve (step (step c Act.captureTrigger) Act.captureTrigger) 0 true sA true from rfl,
      rB.2, hBpend]
    rfl
  have hCeff : (step (step (step c Act.captureTrigger) Act.captureTrigger)
      (Act.captureResolve 0 true sA true)).effects =
      c.effects ++ [Effect.postSessions c.st.siteName c.st.date z.latitude z.longitude,
        Effect.postSessions c.st.siteName c.st.date z.latitude z.longitude] ++
      [Effect.postPhotos sA (c.st.seq + 1) z.latitude z.longitude c.st.pitchRef c.st.headingRef
        c.st.zoom (formatFilename c.st.siteName c.st.date (c.st.seq + 1) z.latitude z.longitude)] := by
    rw [show step (step (step c Act.captureTrigger) Act.captureTrigger)
        (Act.captureResolve 0 true sA true) =
      stepResolve (step (step c Act.captureTrigger) Act.captureTrigger) 0 true sA true from rfl,
      rB.1, hBeff]
    simp
  have hCseq : (step (step (step c Act.captureTrigger) Act.captureTrigger)
      (Act.captureResolve 0 true sA true)).st.seq = c.st.seq + 1 := by
    rw [show step (step (step c Act.captureTrigger) Act.captureTrigger)
        (Act.captureResolve 0 true sA true) =
      stepResolve (step (step c Act.captureTrigger) Act.captureTrigger) 0 true sA true from rfl,
      sB1, hBst]
  have hpC : (step (step (step c Act.captureTrigger) Act.captureTrigger)
      (Act.captureResolve 0 true sA true)).pending.get? 0 = some ⟨c.st, true⟩ := by
    rw [hCpend]
    rfl
  have rC := stepResolve_effects (step (step (step c Act.captureTrigger) Act.captureTrigger)
      (Act.captureResolve 0 true sA true))
    0 true sB ⟨c.st, true⟩ z true hpC hz (fun _ => rfl)
  have sC1 := (stepResolve_seq (step (step (step c Act.captureTrigger) Act.captureTrigger)
      (Act.captureResolve 0 true sA true))
    0 true sB ⟨c.st, true⟩ z hpC hz (fun _ => rfl)).1
  have hrun : run c [Act.captureTrigger, Act.captureTrigger,
      Act.captureResolve 0 true sA true, Act.captureResolve 0 true sB true] =
    step (step (step (step c Act.captureTrigger) Act.captureTrigger)
      (Act.captureResolve 0 true sA true)) (Act.captureResolve 0 true sB true) := rfl
  constructor
  . rw [hrun, show step (step (step (step c Act.captureTrigger) Act.captureTrigger)
        (Act.captureResolve 0 true sA true)) (Act.captureResolve 0 true sB true) =
      stepResolve (step (step (step c Act.captureTrigger) Act.captureTrigger)
        (Act.captureResolve 0 true sA true)) 0 true sB true from rfl,
      rC.1, hCeff]
    simp [photoSeqs]
  . rw [hrun, show step (step (step (step c Act.captureTrigger) Act.captureTrigger)
        (Act.captureResolve 0 true sA true)) (Act.captureResolve 0 true sB true) =
      stepResolve (step (step (step c Act.captureTrigger) Act.captureTrigger)
        (Act.captureResolve 0 true sA true)) 0 true sB true from rfl,
      sC1, hCseq]


/-- C9: witness. From a concrete just-started session, the double trigger
and the two resolutions upload sequence numbers 1 and 1 and leave the
counter at 2. -/
theorem c9_trigger_sequence_witness :
    ((run (initConfig "d") [Act.setSiteName "V", Act.geo 7 8,
        Act.startClick true true "" none (some "q1")]).st.capturing = true) ∧
    ((run (initConfig "d") [Act.setSiteName "V", Act.geo 7 8,
        Act.startClick true true "" none (some "q1")]).pending = []) ∧
    (photoSeqs (run (run (initConfig "d") [Act.setSiteName "V", Act.geo 7 8,
        Act.startClick true true "" none (some "q1")]) [Act.captureTrigger, Act.captureTrigger,
        Act.captureResolve 0 true (some "qA") true,
        Act.captureResolve 0 true (some "qB") true]).effects =
      photoSeqs (run (initConfig "d") [Act.setSiteName "V", Act.geo 7 8,
        Act.startClick true true "" none (some "q1")]).effects ++
        [(run (initConfig "d") [Act.setSiteName "V", Act.geo 7 8,
          Act.startClick true true "" none (some "q1")]).st.seq + 1,
         (run (initConfig "d") [Act.setSiteName "V", Act.geo 7 8,
          Act.startClick true true "" none (some "q1")]).st.seq + 1]) :=
  ⟨by decide, by decide,
   (c9_trigger_sequence (run (initConfig "d") [Act.setSiteName "V", Act.geo 7 8,
      Act.startClick true true "" none (some "q1")]) ⟨7, 8⟩ (some "qA") (some "qB")
      (by decide) (by decide) (by decide) (by decide) (by decide) (by decide)).1⟩

/-- C10: with an empty site name or no fix yet, `createSession` issues no
network request, surfaces only the validation alert and returns no
session id; consequently a start click from an idle controller leaves it
not started and adds no session request to the trace, on every path of
`onStart`. -/
theorem c10_create_session_guard :
    (∀ (s : St) (ns : Option String), s.siteName = "" ∨ s.coords = none →
      createSession s ns = (none, [Effect.alert "Alan adı ve konum gerekli"])) ∧
    (∀ (c : Config) (cy ck : Bool) (ce : String) (zc : Option (ℚ × ℚ)) (ns : Option String),
      c.st.siteName = "" ∨ c.st.coords = none → c.st.started = false →
      (step c (Act.startClick cy ck ce zc ns)).st.started = false ∧
      sessionReqCount (step c (Act.startClick cy ck ce zc ns)).effects =
        sessionReqCount c.effects) :=
  ⟨fun s ns h => createSession_fail s ns h,
   fun c cy ck ce zc ns hg h0 => stepStart_guard_fail c cy ck ce zc ns hg h0⟩

/-- C10: witness. On the freshly mounted component (empty site name, no
fix), `createSession` answers the alert and no session id. -/
theorem c10_create_session_guard_witness :
    ((initSt "2024-05-01").siteName = "" ∨ (initSt "2024-05-01").coords = none) ∧
    createSession (initSt "2024-05-01") (some "x") =
      (none, [Effect.alert "Alan adı ve konum gerekli"]) :=
  ⟨by decide, c10_create_session_guard.1 (initSt "2024-05-01") (some "x") (by decide)⟩

end TrenchSight
